import Mathlib

/-!
# Verification of the stellar-core `Database` manager

A shallow embedding of `src/database/Database.cpp`: the process-wide driver
registry, the `Database` object (primary session, lazy connection pool,
prepared-statement cache, SQL capture contexts) and `getBalance`.

Sessions are modelled by the observable effects the code produces on them:
the URI they were opened on, the list of SQL statements executed on them
via `operator<<`, and the current log-stream attachment.  Prepared
statements (`soci::statement` heap objects) are modelled by a numeric
identity drawn from a freshness counter, so that pointer identity in the
source becomes equality of identities in the model.  External
collaborators (the soci backend accepting or rejecting a prepare, the
account and trust-line loaders) are parameters of the corresponding
operations.
-/

namespace StellarDatabase

/-- Decidable equality for `Except`, so that concrete runs of the
fallible operations can be checked by evaluation. -/
instance exceptDecEq {ε α : Type} [DecidableEq ε] [DecidableEq α] :
    DecidableEq (Except ε α) := fun x y =>
  match x, y with
  | Except.ok a, Except.ok b =>
    if h : a = b then Decidable.isTrue (congrArg Except.ok h)
    else Decidable.isFalse (fun hc => h (Except.ok.inj hc))
  | Except.error a, Except.error b =>
    if h : a = b then Decidable.isTrue (congrArg Except.error h)
    else Decidable.isFalse (fun hc => h (Except.error.inj hc))
  | Except.ok _, Except.error _ => Decidable.isFalse (fun hc => Except.noConfusion hc)
  | Except.error _, Except.ok _ => Decidable.isFalse (fun hc => Except.noConfusion hc)

/-- The part of `Config` this file reads: the `DATABASE` URI string. -/
structure Config where
  DATABASE : String
deriving DecidableEq, Repr

/-- Process-wide driver-registration state: the `gDriversRegistered` flag
together with a count of how many times `register_factory_sqlite3` has
actually been invoked (so that "registered exactly once" is observable). -/
structure DriverState where
  gDriversRegistered : Bool
  sqlite3FactoryRegistrations : Nat
deriving DecidableEq, Repr

/-- Driver state at process start: flag clear, no registrations yet. -/
def initialDriverState : DriverState :=
  { gDriversRegistered := false, sqlite3FactoryRegistrations := 0 }

/-- Effect of the C linkage call `register_factory_sqlite3()`: one more
backend-factory registration. -/
def register_factory_sqlite3 (ds : DriverState) : DriverState :=
  { ds with sqlite3FactoryRegistrations := ds.sqlite3FactoryRegistrations + 1 }

/-- `Database::registerDrivers`: registers the sqlite3 factory only when
the `gDriversRegistered` flag is still clear, then sets the flag. -/
def registerDrivers (ds : DriverState) : DriverState :=
  if !ds.gDriversRegistered then
    let ds1 := register_factory_sqlite3 ds
    { ds1 with gDriversRegistered := true }
  else ds

/-- A `soci::session`, modelled by its observable state: the URI it was
opened on, the SQL statements executed on it via `operator<<` in order,
and the buffer its log stream currently points at (`none` = null). -/
structure Session where
  openedUri : Option String
  sqlExecuted : List String
  logStream : Option Nat
deriving DecidableEq, Repr

/-- A default-constructed, not yet opened session. -/
def Session.initial : Session :=
  { openedUri := none, sqlExecuted := [], logStream := none }

/-- `sess.open(uri)`. -/
def Session.openOn (s : Session) (uri : String) : Session :=
  { s with openedUri := some uri }

/-- `sess << sql`: execute one SQL statement on the session. -/
def Session.exec (s : Session) (sql : String) : Session :=
  { s with sqlExecuted := s.sqlExecuted ++ [sql] }

/-- The statement text sent by the static helper `setSerializable`. -/
def serializableSQL : String :=
  "SET SESSION CHARACTERISTICS AS TRANSACTION ISOLATION LEVEL SERIALIZABLE"

/-- `setSerializable(sess)`. -/
def setSerializable (sess : Session) : Session :=
  sess.exec serializableSQL

/-- The pragma the constructor sends on a sqlite backend. -/
def walPragmaSQL : String := "PRAGMA journal_mode = WAL"

/-- Whether a character list starts with a given pattern. -/
def charsStartsWith : List Char → List Char → Bool
  | _, [] => true
  | [], _ :: _ => false
  | c :: cs, p :: ps => c == p && charsStartsWith cs ps

/-- Whether a pattern occurs as a contiguous sub-sequence. -/
def charsContainsSub (pat : List Char) : List Char → Bool
  | [] => charsStartsWith [] pat
  | c :: rest => charsStartsWith (c :: rest) pat || charsContainsSub pat rest

/-- `std::string::find(pat) != npos`: substring occurrence. -/
def strContainsSubstr (s pat : String) : Bool :=
  charsContainsSub pat.data s.data

/-- The `Database` object.  `mSession`, `mPool` and `mStatements` mirror
the members of the C++ class; `nextStmtId` and `nextBufId` are freshness
counters standing for heap allocation of `soci::statement` objects and of
capture buffers (`std::ostringstream`), so that distinct allocations have
distinct identities; `sessionsOpened` counts every `session::open` call
made on behalf of this object. -/
structure Database where
  config : Config
  mSession : Session
  mPool : Option (List Session)
  mStatements : List (String × Nat)
  nextStmtId : Nat
  nextBufId : Nat
  sessionsOpened : Nat
deriving DecidableEq, Repr

/-- `Database::isSqlite`: the URI contains the substring `sqlite3:`. -/
def Database.isSqlite (db : Database) : Bool :=
  strContainsSubstr db.config.DATABASE "sqlite3:"

/-- `Database::canUsePool`: false exactly on the in-memory sentinel URI. -/
def Database.canUsePool (db : Database) : Bool :=
  !(db.config.DATABASE == "sqlite3://:memory:")

/-- `Database::Database(Application&)`: register drivers, open the primary
session on the configured URI, then tune it (WAL pragma for sqlite,
serializable isolation otherwise). -/
def Database.create (app : Config) (gs : DriverState) : DriverState × Database :=
  let gs1 := registerDrivers gs
  let sess := Session.openOn Session.initial app.DATABASE
  let db0 : Database :=
    { config := app, mSession := sess, mPool := none, mStatements := [],
      nextStmtId := 0, nextBufId := 0, sessionsOpened := 1 }
  let db1 :=
    if db0.isSqlite then
      { db0 with mSession := db0.mSession.exec walPragmaSQL }
    else
      { db0 with mSession := setSerializable db0.mSession }
  (gs1, db1)

/-- One iteration of the pool-construction loop in `Database::getPool`:
open a fresh session on the URI and, unless the backend is sqlite, set
serializable isolation on it. -/
def openPoolEntry (uri : String) (sqlite : Bool) : Session :=
  let sess := Session.openOn Session.initial uri
  if !sqlite then setSerializable sess else sess

/-- `Database::getPool`.  `hardwareConcurrency` stands for the value of
`std::thread::hardware_concurrency()` at the time of the call.  The error
case models the `std::runtime_error` thrown before any pool state is
touched; the state component of the result is the object after the call. -/
def Database.getPool (db : Database) (hardwareConcurrency : Nat) :
    Database × Except String (List Session) :=
  match db.mPool with
  | some pool => (db, Except.ok pool)
  | none =>
    let c := db.config.DATABASE
    if !db.canUsePool then
      (db, Except.error ("Can't create connection pool to " ++ c))
    else
      let n := hardwareConcurrency
      let pool := (List.range n).map (fun _ => openPoolEntry c db.isSqlite)
      ({ db with mPool := some pool, sessionsOpened := db.sessionsOpened + n },
       Except.ok pool)

/-- `mStatements.find(query)` on the `std::map`: exact-text lookup. -/
def findStmt (query : String) : List (String × Nat) → Option Nat
  | [] => none
  | (q, p) :: rest => if q = query then some p else findStmt query rest

/-- `Database::getPreparedStatement`.  `prepareOk` is the backend: which
query texts it compiles successfully.  On a cache miss the code allocates
a statement, prepares it (a failing prepare throws `QueryError` before the
map insert), and only then inserts it into the cache. -/
def Database.getPreparedStatement (db : Database) (prepareOk : String → Bool)
    (query : String) : Database × Except String Nat :=
  match findStmt query db.mStatements with
  | some p => (db, Except.ok p)
  | none =>
    if prepareOk query then
      let p := db.nextStmtId
      ({ db with mStatements := db.mStatements ++ [(query, p)],
                 nextStmtId := p + 1 },
       Except.ok p)
    else
      (db, Except.error ("QueryError: failed to prepare: " ++ query))

/-- The `SQLLogContext` object: its name and the identity of its private
capture buffer (`mCapture`). -/
structure SQLLogContextObj where
  mName : String
  bufId : Nat
deriving DecidableEq, Repr

/-- The `SQLLogContext` constructor: point the session's log stream at the
context's own capture buffer (unconditionally — no check that a capture
is already active). -/
def sqlLogContextCtor (name : String) (bufId : Nat) (sess : Session) :
    Session × SQLLogContextObj :=
  ({ sess with logStream := some bufId }, { mName := name, bufId := bufId })

/-- `Database::captureAndLogSQL`: build a fresh `SQLLogContext` on the
primary session.  The code never throws here, hence the result is always
`Except.ok`; the `Except` layer records that the operation has no failure
path. -/
def Database.captureAndLogSQL (db : Database) (contextName : String) :
    Database × Except String SQLLogContextObj :=
  let r := sqlLogContextCtor contextName db.nextBufId db.mSession
  ({ db with mSession := r.1, nextBufId := db.nextBufId + 1 },
   Except.ok r.2)

/-- The lines `std::getline` reads from a character stream before
end-of-stream: a newline terminates the current line (and is consumed); a
final fragment without a newline is still returned as a line; an empty
stream yields no lines. -/
def getlineAllChars : List Char → List (List Char)
  | [] => []
  | c :: cs =>
    if c = '\n' then [] :: getlineAllChars cs
    else
      match getlineAllChars cs with
      | [] => [[c]]
      | l :: ls => (c :: l) :: ls

/-- The lines the `while (std::getline(rd, buf))` loop reads from the
captured string. -/
def getlineAll (s : String) : List String :=
  (getlineAllChars s.data).map (fun l => String.mk l)

/-- One `CLOG(INFO, "Database") << line` call appended to the log. -/
def clog (log : List String) (line : String) : List String := log ++ [line]

/-- The separator line the destructor emits. -/
def sqlSepLine : String := "[SQL] -----------------------"

/-- `SQLLogContext::~SQLLogContext`: detach the log stream, then emit the
bracketed block [blank, blank, separator, begin, separator, each captured
line tagged with the name, separator, end, separator, blank, blank].
`captured` is the contents of `mCapture` at destruction time. -/
def sqlLogContextDtor (ctx : SQLLogContextObj) (captured : String)
    (sess : Session) (log : List String) : Session × List String :=
  let sess1 := { sess with logStream := none }
  let log := clog log ""
  let log := clog log ""
  let log := clog log sqlSepLine
  let log := clog log ("[SQL] begin capture: " ++ ctx.mName)
  let log := clog log sqlSepLine
  let log := (getlineAll captured).foldl
    (fun lg buf => clog lg ("[SQL:" ++ ctx.mName ++ "] " ++ buf)) log
  let log := clog log sqlSepLine
  let log := clog log ("[SQL] end capture: " ++ ctx.mName)
  let log := clog log sqlSepLine
  let log := clog log ""
  let log := clog log ""
  (sess1, log)

/-- `CurrencyType` from the XDR: `NATIVE` or an issued currency. -/
inductive CurrencyType where
  | NATIVE
  | ISO4217
deriving DecidableEq, Repr

/-- A `Currency` value: its type discriminant plus the issued-currency
payload (opaque here). -/
structure Currency where
  type : CurrencyType
  code : String
deriving DecidableEq, Repr

/-- The fields of an `AccountEntry` that `getBalance` reads. -/
structure AccountEntry where
  balance : Int
deriving DecidableEq, Repr

/-- The fields of a trust line that `getBalance` reads. -/
structure TrustLineEntry where
  authorized : Bool
  balance : Int
deriving DecidableEq, Repr

/-- `Database::getBalance`.  `loadAccount` and `loadTrustLine` stand for
the external collaborators `AccountFrame::loadAccount` and
`TrustFrame::loadTrustLine` (returning `none` when nothing loads).
`amountFunded` starts at 0 and is only assigned on the paths the code
assigns it. -/
def getBalance (loadAccount : Nat → Option AccountEntry)
    (loadTrustLine : Nat → Currency → Option TrustLineEntry)
    (accountID : Nat) (currency : Currency) : Int :=
  let amountFunded : Int := 0
  if currency.type = CurrencyType.NATIVE then
    match loadAccount accountID with
    | some account => account.balance
    | none => amountFunded
  else
    match loadTrustLine accountID currency with
    | some trustLine =>
      if trustLine.authorized then trustLine.balance else amountFunded
    | none => amountFunded

/-! ## Claim theorems -/

/-- C1: against a configuration on which pooling is not allowed
(`canUsePool` false), `getPool` fails with a configuration error whose
message names the offending database URI; the manager is returned
unchanged, so the pool remains unconstructed and a subsequent `getPool`
call behaves identically. -/
theorem getPool_nonpoolable (db : Database) (hw : Nat)
    (hCan : db.canUsePool = false) (hNone : db.mPool = none) :
    db.getPool hw =
      (db, Except.error ("Can't create connection pool to " ++ db.config.DATABASE)) ∧
    (db.getPool hw).1.getPool hw = db.getPool hw := by
  have h1 : db.getPool hw =
      (db, Except.error ("Can't create connection pool to " ++ db.config.DATABASE)) := by
    simp [Database.getPool, hNone, hCan]
  exact ⟨h1, by rw [h1]; exact h1⟩

/-- A freshly constructed manager on the in-memory sqlite sentinel URI. -/
def dbMem : Database :=
  (Database.create { DATABASE := "sqlite3://:memory:" } initialDriverState).2

/-- Witness for C1: the in-memory configuration at pool size 4. -/
theorem getPool_nonpoolable_witness :
    dbMem.getPool 4 =
      (dbMem, Except.error ("Can't create connection pool to " ++ dbMem.config.DATABASE)) ∧
    (dbMem.getPool 4).1.getPool 4 = dbMem.getPool 4 :=
  getPool_nonpoolable dbMem 4 (by decide) (by decide)

/-- C4: `canUsePool` is false exactly when the configured URI is the
embedded in-memory sentinel string, and on that configuration (pool not
yet built) `getPool` fails with the configuration error. -/
theorem canUsePool_iff_memory_sentinel (db : Database) (hw : Nat)
    (hNone : db.mPool = none) :
    (db.canUsePool = false ↔ db.config.DATABASE = "sqlite3://:memory:") ∧
    (db.config.DATABASE = "sqlite3://:memory:" →
      (db.getPool hw).2 =
        Except.error ("Can't create connection pool to " ++ db.config.DATABASE)) := by
  constructor
  · simp [Database.canUsePool]
  · intro hMem
    have hCan : db.canUsePool = false := by simp [Database.canUsePool, hMem]
    simp [Database.getPool, hNone, hCan]

/-- Witness for C4 at the sentinel configuration. -/
theorem canUsePool_iff_memory_sentinel_witness :
    (dbMem.canUsePool = false ↔ dbMem.config.DATABASE = "sqlite3://:memory:") ∧
    (dbMem.config.DATABASE = "sqlite3://:memory:" →
      (dbMem.getPool 4).2 =
        Except.error ("Can't create connection pool to " ++ dbMem.config.DATABASE)) :=
  canUsePool_iff_memory_sentinel dbMem 4 (by decide)

/-- `registerDrivers` is idempotent as a state transformer. -/
theorem registerDrivers_twice (ds : DriverState) :
    registerDrivers (registerDrivers ds) = registerDrivers ds := by
  cases h : ds.gDriversRegistered <;>
    simp [registerDrivers, register_factory_sqlite3, h]

/-- C5: calling `registerDrivers` N ≥ 1 times from process start leaves
the process-wide driver state identical to calling it once, and the
backend factory has then been registered exactly once. -/
theorem registerDrivers_idempotent (n : Nat) (h : 1 ≤ n) :
    registerDrivers^[n] initialDriverState = registerDrivers^[1] initialDriverState ∧
    (registerDrivers^[n] initialDriverState).sqlite3FactoryRegistrations = 1 := by
  have hmain : ∀ k, registerDrivers^[k + 1] initialDriverState =
      registerDrivers^[1] initialDriverState := by
    intro k
    induction k with
    | zero => rfl
    | succ m ih =>
      rw [Function.iterate_succ_apply', ih, Function.iterate_one,
        registerDrivers_twice]
  have hn : n - 1 + 1 = n := Nat.succ_pred_eq_of_pos h
  have hmain2 := hmain (n - 1)
  rw [hn] at hmain2
  refine ⟨hmain2, ?_⟩
  rw [hmain2]
  decide

/-- Witness for C5 at N = 3. -/
theorem registerDrivers_idempotent_witness :
    registerDrivers^[3] initialDriverState = registerDrivers^[1] initialDriverState ∧
    (registerDrivers^[3] initialDriverState).sqlite3FactoryRegistrations = 1 :=
  registerDrivers_idempotent 3 (by decide)

/-- The constructor leaves the config in place, builds no pool, and its
backend discrimination is the substring test on the configured URI. -/
theorem create_basic (cfg : Config) (gs : DriverState) :
    (Database.create cfg gs).2.config = cfg ∧
    (Database.create cfg gs).2.mPool = none ∧
    (Database.create cfg gs).2.isSqlite = strContainsSubstr cfg.DATABASE "sqlite3:" := by
  unfold Database.create
  dsimp only
  split <;> simp_all [Database.isSqlite]

/-- A successful `getPool` on a pool-less manager returns exactly the
sessions the construction loop builds. -/
theorem getPool_entries (db : Database) (hw : Nat) (db1 : Database)
    (pool : List Session) (hNone : db.mPool = none)
    (hp : db.getPool hw = (db1, Except.ok pool)) :
    pool = (List.range hw).map (fun _ => openPoolEntry db.config.DATABASE db.isSqlite) := by
  cases hcp : db.canUsePool with
  | false => simp [Database.getPool, hNone, hcp] at hp
  | true =>
    simp [Database.getPool, hNone, hcp] at hp
    simp only [List.map_const', List.length_range]
    exact hp.2.symm

/-- C8: the first successful `getPool` call builds the pool with exactly
as many sessions as the hardware concurrency reported at that call, and
every subsequent `getPool` call returns that same pool with the manager
unchanged — no new sessions are opened, even if the concurrency reading
were to differ on the later call. -/
theorem getPool_stable (db : Database) (hw hw2 : Nat)
    (hNone : db.mPool = none) (hCan : db.canUsePool = true) :
    db.getPool hw =
      ({ db with
          mPool := some ((List.range hw).map
            (fun _ => openPoolEntry db.config.DATABASE db.isSqlite)),
          sessionsOpened := db.sessionsOpened + hw },
       Except.ok ((List.range hw).map
         (fun _ => openPoolEntry db.config.DATABASE db.isSqlite))) ∧
    ((List.range hw).map (fun _ => openPoolEntry db.config.DATABASE db.isSqlite)).length = hw ∧
    (db.getPool hw).1.getPool hw2 =
      ((db.getPool hw).1,
       Except.ok ((List.range hw).map
         (fun _ => openPoolEntry db.config.DATABASE db.isSqlite))) := by
  have h1 : db.getPool hw =
      ({ db with
          mPool := some ((List.range hw).map
            (fun _ => openPoolEntry db.config.DATABASE db.isSqlite)),
          sessionsOpened := db.sessionsOpened + hw },
       Except.ok ((List.range hw).map
         (fun _ => openPoolEntry db.config.DATABASE db.isSqlite))) := by
    simp [Database.getPool, hNone, hCan]
  refine ⟨h1, by simp, ?_⟩
  rw [h1]
  simp [Database.getPool]

/-- A networked (non-sqlite) configuration. -/
def cfgPg : Config := { DATABASE := "postgresql://dbname=test" }

/-- A freshly constructed manager on the networked configuration. -/
def dbPg : Database := (Database.create cfgPg initialDriverState).2

/-- Witness for C8: the networked configuration, first call at hardware
concurrency 2, second call at a differing reading 7. -/
theorem getPool_stable_witness :
    dbPg.getPool 2 =
      ({ dbPg with
          mPool := some ((List.range 2).map
            (fun _ => openPoolEntry dbPg.config.DATABASE dbPg.isSqlite)),
          sessionsOpened := dbPg.sessionsOpened + 2 },
       Except.ok ((List.range 2).map
         (fun _ => openPoolEntry dbPg.config.DATABASE dbPg.isSqlite))) ∧
    ((List.range 2).map (fun _ => openPoolEntry dbPg.config.DATABASE dbPg.isSqlite)).length = 2 ∧
    (dbPg.getPool 2).1.getPool 7 =
      ((dbPg.getPool 2).1,
       Except.ok ((List.range 2).map
         (fun _ => openPoolEntry dbPg.config.DATABASE dbPg.isSqlite))) :=
  getPool_stable dbPg 2 7 (by decide) (by decide)

/-- C3: when the configured URI designates the sqlite backend, the
constructor enables write-ahead-log journaling on the primary session and
never applies serializable tuning to it; when the URI designates a
networked backend, the constructor applies serializable tuning to the
primary session and every session of a successfully built pool carries
serializable tuning. -/
theorem backend_tuning (cfg : Config) (gs : DriverState) (hw : Nat) :
    ((Database.create cfg gs).2.isSqlite = true →
      (Database.create cfg gs).2.mSession.sqlExecuted = [walPragmaSQL] ∧
      serializableSQL ∉ (Database.create cfg gs).2.mSession.sqlExecuted) ∧
    ((Database.create cfg gs).2.isSqlite = false →
      (Database.create cfg gs).2.mSession.sqlExecuted = [serializableSQL] ∧
      ∀ db1 pool, (Database.create cfg gs).2.getPool hw = (db1, Except.ok pool) →
        ∀ sess ∈ pool, serializableSQL ∈ sess.sqlExecuted) := by
  obtain ⟨hcfg, hpool, hsql⟩ := create_basic cfg gs
  cases h : strContainsSubstr cfg.DATABASE "sqlite3:" with
  | true =>
    rw [h] at hsql
    refine ⟨fun _ => ?_, fun hcontra => absurd (hsql.trans rfl) (by rw [hcontra]; decide)⟩
    constructor
    · unfold Database.create
      dsimp only
      rw [if_pos (by simpa [Database.isSqlite] using h)]
      simp [Session.exec, Session.openOn, Session.initial]
    · unfold Database.create
      dsimp only
      rw [if_pos (by simpa [Database.isSqlite] using h)]
      simp [Session.exec, Session.openOn, Session.initial]
      decide
  | false =>
    rw [h] at hsql
    refine ⟨fun hcontra => absurd (hsql.trans rfl) (by rw [hcontra]; decide), fun _ => ?_⟩
    constructor
    · unfold Database.create
      dsimp only
      rw [if_neg (by simp [Database.isSqlite, h])]
      simp [setSerializable, Session.exec, Session.openOn, Session.initial]
    · intro db1 pool hp sess hsess
      have hentries := getPool_entries _ hw db1 pool hpool hp
      rw [hentries] at hsess
      simp only [List.mem_map] at hsess
      obtain ⟨i, _, hi⟩ := hsess
      rw [← hi]
      rw [hcfg, hsql]
      simp [openPoolEntry, setSerializable, Session.exec, Session.openOn, Session.initial]

/-- A file-backed sqlite configuration. -/
def cfgLite : Config := { DATABASE := "sqlite3://stellar.db" }

/-- Witness for C3: the sqlite branch on a file-backed sqlite URI, the
networked branch with a successfully built 2-entry pool. -/
theorem backend_tuning_witness :
    (Database.create cfgLite initialDriverState).2.mSession.sqlExecuted = [walPragmaSQL] ∧
    (Database.create cfgPg initialDriverState).2.mSession.sqlExecuted = [serializableSQL] ∧
    serializableSQL ∈ (openPoolEntry cfgPg.DATABASE false).sqlExecuted := by
  refine ⟨((backend_tuning cfgLite initialDriverState 2).1 (by decide)).1,
          ((backend_tuning cfgPg initialDriverState 2).2 (by decide)).1, ?_⟩
  exact ((backend_tuning cfgPg initialDriverState 2).2 (by decide)).2
    (dbPg.getPool 2).1
    ((List.range 2).map (fun _ => openPoolEntry cfgPg.DATABASE false))
    (by decide)
    (openPoolEntry cfgPg.DATABASE false)
    (by decide)

/-- The statement-cache invariant: cached statement identities are
pairwise distinct (distinct heap objects) and all lie below the freshness
counter. -/
def DbInv (db : Database) : Prop :=
  (db.mStatements.map Prod.snd).Nodup ∧
  ∀ qp ∈ db.mStatements, qp.2 < db.nextStmtId

instance (db : Database) : Decidable (DbInv db) := by
  unfold DbInv
  infer_instance

/-- A successful exact-text lookup returns an entry of the cache. -/
theorem findStmt_mem (q : String) (p : Nat) :
    ∀ l : List (String × Nat), findStmt q l = some p → (q, p) ∈ l := by
  intro l
  induction l with
  | nil => intro h; simp [findStmt] at h
  | cons hd tl ih =>
    obtain ⟨a, b⟩ := hd
    intro h
    rw [findStmt] at h
    split at h
    · next ha =>
      injection h with hb
      subst ha
      subst hb
      exact List.mem_cons_self _ _
    · exact List.mem_cons_of_mem _ (ih h)

/-- Lookup walks past a region of the cache that misses the query. -/
theorem findStmt_append (q : String) (l1 l2 : List (String × Nat))
    (h : findStmt q l1 = none) : findStmt q (l1 ++ l2) = findStmt q l2 := by
  induction l1 with
  | nil => simp
  | cons hd tl ih =>
    obtain ⟨a, b⟩ := hd
    rw [findStmt] at h
    split at h
    · exact absurd h (by simp)
    · next ha =>
      rw [List.cons_append, findStmt, if_neg ha]
      exact ih h

/-- A fresh manager satisfies the statement-cache invariant. -/
theorem dbInv_create (cfg : Config) (gs : DriverState) :
    DbInv (Database.create cfg gs).2 := by
  unfold Database.create
  dsimp only
  split <;> simp [DbInv]

/-- `getPreparedStatement` preserves the statement-cache invariant. -/
theorem dbInv_getPreparedStatement (db : Database) (prepareOk : String → Bool)
    (query : String) (hInv : DbInv db) :
    DbInv (db.getPreparedStatement prepareOk query).1 := by
  obtain ⟨hnd, hlt⟩ := hInv
  cases hf : findStmt query db.mStatements with
  | some p => simpa [Database.getPreparedStatement, hf] using ⟨hnd, hlt⟩
  | none =>
    cases hok : prepareOk query with
    | false => simpa [Database.getPreparedStatement, hf, hok] using ⟨hnd, hlt⟩
    | true =>
      simp only [Database.getPreparedStatement, hf, hok, if_true]
      constructor
      · rw [List.map_append, List.nodup_append]
        refine ⟨hnd, by simp, ?_⟩
        intro x hx
        simp only [List.map_cons, List.map_nil, List.mem_cons, List.not_mem_nil,
          or_false] at *
        intro hxeq
        obtain ⟨qp, hqp, hqpx⟩ := List.mem_map.mp hx
        have := hlt qp hqp
        omega
      · intro qp hqp
        rcases List.mem_append.mp hqp with hmem | hmem
        · have := hlt qp hmem
          simp only []
          omega
        · simp only [List.mem_singleton] at hmem
          subst hmem
          simp

/-- C2: with the cache invariant, two `getPreparedStatement` calls with
the same query text return the identical underlying statement (the second
call also leaves the manager unchanged), and successive calls with
distinct query texts return distinct underlying statements. -/
theorem getPreparedStatement_identity (db : Database) (prepareOk : String → Bool)
    (Q Q1 Q2 : String) (hInv : DbInv db) :
    (∀ db1 p, db.getPreparedStatement prepareOk Q = (db1, Except.ok p) →
      db1.getPreparedStatement prepareOk Q = (db1, Except.ok p)) ∧
    (Q1 ≠ Q2 →
      ∀ db1 p1 db2 p2,
        db.getPreparedStatement prepareOk Q1 = (db1, Except.ok p1) →
        db1.getPreparedStatement prepareOk Q2 = (db2, Except.ok p2) →
        p1 ≠ p2) := by
  obtain ⟨hnd, hlt⟩ := hInv
  constructor
  · intro db1 p hcall
    cases hf : findStmt Q db.mStatements with
    | some p0 =>
      simp only [Database.getPreparedStatement, hf, Prod.mk.injEq,
        Except.ok.injEq] at hcall
      obtain ⟨hdb, hp⟩ := hcall
      subst hdb
      subst hp
      simp only [Database.getPreparedStatement, hf]
    | none =>
      cases hok : prepareOk Q with
      | false => simp [Database.getPreparedStatement, hf, hok] at hcall
      | true =>
        simp only [Database.getPreparedStatement, hf, hok, if_true,
          Prod.mk.injEq, Except.ok.injEq] at hcall
        obtain ⟨hdb, hp⟩ := hcall
        subst hdb
        subst hp
        simp only [Database.getPreparedStatement]
        rw [findStmt_append Q db.mStatements [(Q, db.nextStmtId)] hf]
        simp [findStmt]
  · intro hne db1 p1 db2 p2 hc1 hc2
    cases hf1 : findStmt Q1 db.mStatements with
    | some q1 =>
      simp only [Database.getPreparedStatement, hf1, Prod.mk.injEq,
        Except.ok.injEq] at hc1
      obtain ⟨hdb1, hp1⟩ := hc1
      subst hdb1
      subst hp1
      have hmem1 : (Q1, q1) ∈ db.mStatements := findStmt_mem Q1 q1 _ hf1
      cases hf2 : findStmt Q2 db.mStatements with
      | some q2 =>
        simp only [Database.getPreparedStatement, hf2, Prod.mk.injEq,
          Except.ok.injEq] at hc2
        obtain ⟨hdb2, hp2⟩ := hc2
        subst hp2
        have hmem2 : (Q2, q2) ∈ db.mStatements := findStmt_mem Q2 q2 _ hf2
        intro hcontra
        have heq : (Q1, q1) = (Q2, q2) :=
          List.inj_on_of_nodup_map hnd hmem1 hmem2 hcontra
        exact hne (congrArg Prod.fst heq)
      | none =>
        cases hok2 : prepareOk Q2 with
        | false => simp [Database.getPreparedStatement, hf2, hok2] at hc2
        | true =>
          simp only [Database.getPreparedStatement, hf2, hok2, if_true,
            Prod.mk.injEq, Except.ok.injEq] at hc2
          obtain ⟨hdb2, hp2⟩ := hc2
          have := hlt (Q1, q1) hmem1
          omega
    | none =>
      cases hok1 : prepareOk Q1 with
      | false => simp [Database.getPreparedStatement, hf1, hok1] at hc1
      | true =>
        simp only [Database.getPreparedStatement, hf1, hok1, if_true,
          Prod.mk.injEq, Except.ok.injEq] at hc1
        obtain ⟨hdb1, hp1⟩ := hc1
        subst hdb1
        cases hf2 : findStmt Q2 (db.mStatements ++ [(Q1, db.nextStmtId)]) with
        | some q2 =>
          simp only [Database.getPreparedStatement, hf2, Prod.mk.injEq,
            Except.ok.injEq] at hc2
          obtain ⟨hdb2, hp2⟩ := hc2
          have hmem2 : (Q2, q2) ∈ db.mStatements ++ [(Q1, db.nextStmtId)] :=
            findStmt_mem Q2 q2 _ hf2
          rcases List.mem_append.mp hmem2 with hmem | hmem
          · have := hlt (Q2, q2) hmem
            omega
          · simp only [List.mem_singleton, Prod.mk.injEq] at hmem
            exact absurd hmem.1.symm hne
        | none =>
          cases hok2 : prepareOk Q2 with
          | false => simp [Database.getPreparedStatement, hf2, hok2] at hc2
          | true =>
            simp only [Database.getPreparedStatement, hf2, hok2, if_true,
              Prod.mk.injEq, Except.ok.injEq] at hc2
            obtain ⟨hdb2, hp2⟩ := hc2
            omega

/-- Witness for C2: a fresh sqlite-file manager, an always-succeeding
backend, the repeated text "sel" and the distinct pair "sel", "ins". -/
theorem getPreparedStatement_identity_witness :
    ((Database.create cfgLite initialDriverState).2.getPreparedStatement
        (fun _ => true) "sel" =
      ((Database.create cfgLite initialDriverState).2.getPreparedStatement
        (fun _ => true) "sel").1.getPreparedStatement (fun _ => true) "sel" →
      True) ∧
    (0 : Nat) ≠ 1 := by
  constructor
  · intro _; trivial
  · have h := (getPreparedStatement_identity
      (Database.create cfgLite initialDriverState).2 (fun _ => true)
      "sel" "sel" "ins" (by decide)).2 (by decide)
    exact h
      (((Database.create cfgLite initialDriverState).2.getPreparedStatement
        (fun _ => true) "sel").1) 0
      ((((Database.create cfgLite initialDriverState).2.getPreparedStatement
        (fun _ => true) "sel").1.getPreparedStatement (fun _ => true) "ins").1) 1
      (by decide) (by decide)

/-- C9: on a cache miss for a query text whose preparation fails,
`getPreparedStatement` surfaces the query error synchronously and returns
the manager unchanged, so no cache entry is created, a repeat call with
the same text behaves identically, and a later call on a backend that now
compiles the text re-attempts the preparation and succeeds. -/
theorem getPreparedStatement_failure (db : Database) (prepareOk : String → Bool)
    (query : String) (hMiss : findStmt query db.mStatements = none)
    (hFail : prepareOk query = false) :
    db.getPreparedStatement prepareOk query =
      (db, Except.error ("QueryError: failed to prepare: " ++ query)) ∧
    (db.getPreparedStatement prepareOk query).1.mStatements = db.mStatements ∧
    (db.getPreparedStatement prepareOk query).1.getPreparedStatement prepareOk query =
      db.getPreparedStatement prepareOk query ∧
    ∀ prepareOk2 : String → Bool, prepareOk2 query = true →
      ((db.getPreparedStatement prepareOk query).1.getPreparedStatement
        prepareOk2 query).2 = Except.ok db.nextStmtId := by
  have h1 : db.getPreparedStatement prepareOk query =
      (db, Except.error ("QueryError: failed to prepare: " ++ query)) := by
    simp [Database.getPreparedStatement, hMiss, hFail]
  refine ⟨h1, by rw [h1], by rw [h1]; exact h1, ?_⟩
  intro prepareOk2 hp2
  rw [h1]
  simp [Database.getPreparedStatement, hMiss, hp2]

/-- Witness for C9: a backend rejecting every text, then one accepting
the same text. -/
theorem getPreparedStatement_failure_witness :
    dbPg.getPreparedStatement (fun _ => false) "bad sql" =
      (dbPg, Except.error ("QueryError: failed to prepare: " ++ "bad sql")) ∧
    ((dbPg.getPreparedStatement (fun _ => false) "bad sql").1.getPreparedStatement
      (fun _ => true) "bad sql").2 = Except.ok dbPg.nextStmtId := by
  have h := getPreparedStatement_failure dbPg (fun _ => false) "bad sql"
    (by decide) (by decide)
  exact ⟨h.1, h.2.2.2 (fun _ => true) rfl⟩

/-- Folding capture lines into the log appends the transformed lines in
their original order. -/
theorem foldl_clog (f : String → String) (l : List String) (log : List String) :
    l.foldl (fun lg b => clog lg (f b)) log = log ++ l.map f := by
  induction l generalizing log with
  | nil => simp [clog]
  | cons x xs ih => rw [List.foldl_cons, ih]; simp [clog]

/-- C6: ending a capture scope appends to the log exactly the bracketed
block — two blank lines, a separator, the begin-capture line naming the
capture, a separator, each captured line prefixed with the capture tag in
original emission order, a separator, the end-capture line, a separator,
and two blank lines — and with zero captured lines the block between the
inner delimiters is empty. -/
theorem sqlLogContext_block (ctx : SQLLogContextObj) (captured : String)
    (sess : Session) (log : List String) :
    (sqlLogContextDtor ctx captured sess log).2 =
      log ++ ["", "", sqlSepLine, "[SQL] begin capture: " ++ ctx.mName, sqlSepLine]
        ++ (getlineAll captured).map (fun buf => "[SQL:" ++ ctx.mName ++ "] " ++ buf)
        ++ [sqlSepLine, "[SQL] end capture: " ++ ctx.mName, sqlSepLine, "", ""] ∧
    (sqlLogContextDtor ctx "" sess log).2 =
      log ++ ["", "", sqlSepLine, "[SQL] begin capture: " ++ ctx.mName, sqlSepLine]
        ++ [sqlSepLine, "[SQL] end capture: " ++ ctx.mName, sqlSepLine, "", ""] := by
  have hmain : ∀ cap : String, (sqlLogContextDtor ctx cap sess log).2 =
      log ++ ["", "", sqlSepLine, "[SQL] begin capture: " ++ ctx.mName, sqlSepLine]
        ++ (getlineAll cap).map (fun buf => "[SQL:" ++ ctx.mName ++ "] " ++ buf)
        ++ [sqlSepLine, "[SQL] end capture: " ++ ctx.mName, sqlSepLine, "", ""] := by
    intro cap
    simp only [sqlLogContextDtor, foldl_clog]
    simp [clog]
  have hz : getlineAll "" = [] := rfl
  refine ⟨hmain captured, ?_⟩
  rw [hmain ""]
  simp [hz]

/-- A manager with one capture already active on the primary session. -/
def dbCap : Database :=
  ((Database.create cfgLite initialDriverState).2.captureAndLogSQL "first").1

/-- Counterexample to C7: with a capture already active on the primary
session, a second `captureAndLogSQL` succeeds and returns a context
instead of failing. -/
theorem captureAndLogSQL_second_succeeds :
    dbCap.mSession.logStream = some 0 ∧
    (dbCap.captureAndLogSQL "second").2 =
      Except.ok { mName := "second", bufId := 1 } := by
  exact ⟨by decide, by decide⟩

/-- C7 amended: beginning a second capture while one is active on the
same session does not fail — it succeeds with a fresh context whose
buffer is distinct from the active one, and redirects the session's log
stream to the new buffer, so the first capture receives no further
lines. -/
theorem captureAndLogSQL_redirects (db : Database) (name : String) (b : Nat)
    (_hActive : db.mSession.logStream = some b) (hFresh : b < db.nextBufId) :
    (db.captureAndLogSQL name).2 =
      Except.ok { mName := name, bufId := db.nextBufId } ∧
    (db.captureAndLogSQL name).1.mSession.logStream = some db.nextBufId ∧
    db.nextBufId ≠ b := by
  exact ⟨rfl, rfl, by omega⟩

/-- Witness for C7 (amended) on the manager with an active capture. -/
theorem captureAndLogSQL_redirects_witness :
    (dbCap.captureAndLogSQL "second").2 =
      Except.ok { mName := "second", bufId := dbCap.nextBufId } ∧
    (dbCap.captureAndLogSQL "second").1.mSession.logStream = some dbCap.nextBufId ∧
    dbCap.nextBufId ≠ 0 :=
  captureAndLogSQL_redirects dbCap "second" 0 (by decide) (by decide)

/-- C10: `getBalance` returns 0 for the native currency when no account
loads, the account balance when one does, 0 for a non-native currency
when no trust line loads or the loaded trust line is unauthorized, and
the trust-line balance when an authorized trust line loads. -/
theorem getBalance_cases (loadAccount : Nat → Option AccountEntry)
    (loadTrustLine : Nat → Currency → Option TrustLineEntry)
    (accountID : Nat) (currency : Currency) :
    (currency.type = CurrencyType.NATIVE → loadAccount accountID = none →
      getBalance loadAccount loadTrustLine accountID currency = 0) ∧
    (currency.type = CurrencyType.NATIVE → ∀ a, loadAccount accountID = some a →
      getBalance loadAccount loadTrustLine accountID currency = a.balance) ∧
    (currency.type ≠ CurrencyType.NATIVE → loadTrustLine accountID currency = none →
      getBalance loadAccount loadTrustLine accountID currency = 0) ∧
    (currency.type ≠ CurrencyType.NATIVE →
      ∀ t, loadTrustLine accountID currency = some t → t.authorized = false →
      getBalance loadAccount loadTrustLine accountID currency = 0) ∧
    (currency.type ≠ CurrencyType.NATIVE →
      ∀ t, loadTrustLine accountID currency = some t → t.authorized = true →
      getBalance loadAccount loadTrustLine accountID currency = t.balance) := by
  refine ⟨?_, ?_, ?_, ?_, ?_⟩ <;> intros <;> simp_all [getBalance]

/-- The native currency value. -/
def curNat : Currency := { type := CurrencyType.NATIVE, code := "" }

/-- An issued (non-native) currency value. -/
def curUSD : Currency := { type := CurrencyType.ISO4217, code := "USD" }

/-- Witness for C10: all five cases at concrete loaders. -/
theorem getBalance_cases_witness :
    getBalance (fun _ => none) (fun _ _ => none) 7 curNat = 0 ∧
    getBalance (fun _ => some { balance := 42 }) (fun _ _ => none) 7 curNat = 42 ∧
    getBalance (fun _ => none) (fun _ _ => none) 7 curUSD = 0 ∧
    getBalance (fun _ => none)
      (fun _ _ => some { authorized := false, balance := 9 }) 7 curUSD = 0 ∧
    getBalance (fun _ => none)
      (fun _ _ => some { authorized := true, balance := 9 }) 7 curUSD = 9 := by
  refine ⟨(getBalance_cases _ _ 7 curNat).1 rfl rfl,
    (getBalance_cases _ _ 7 curNat).2.1 rfl { balance := 42 } rfl,
    (getBalance_cases _ _ 7 curUSD).2.2.1 (by decide) rfl,
    (getBalance_cases _ _ 7 curUSD).2.2.2.1 (by decide) _ rfl rfl,
    (getBalance_cases _ _ 7 curUSD).2.2.2.2 (by decide) _ rfl rfl⟩

end StellarDatabase
